import Mathlib

/-!
Verification of the Waveshare RP2350 relay web server
(`src/c/web_server/main.c`, `src/c/web_server/config.h`).

The request router and relay store are embedded shallowly: the raw HTTP
request is a list of characters (bytes), the relay store is a list of
natural numbers, and `process_http_request` mirrors the C routing function
branch by branch.  Hardware side effects (`gpio_put`, `printf`) and the
socket layer are external collaborators and are not modelled; the response
is modelled by its status line, content type and body, the three arguments
the C code passes to `send_http_response`.
-/

namespace Waveshare

/-- `RELAY_COUNT` from config.h. -/
def RELAY_COUNT : Nat := 8

/-- The relay store `g_relay_states`: a list of byte values (0 = OFF, 1 = ON). -/
abbrev RelayStates := List Nat

/-- `relay_init` zeroes all `RELAY_COUNT` entries of `g_relay_states`. -/
def relay_init : RelayStates := List.replicate RELAY_COUNT 0

/-- `set_relay(relay_num, state)`: if `1 <= relay_num <= RELAY_COUNT`, write
`state ? 1 : 0` at index `relay_num - 1`; otherwise do nothing. -/
def set_relay (relay_num : Nat) (state : Nat) (st : RelayStates) : RelayStates :=
  if 1 ≤ relay_num ∧ relay_num ≤ RELAY_COUNT then
    st.set (relay_num - 1) (if state ≠ 0 then 1 else 0)
  else st

/-- Array read `g_relay_states[i]` (the C array always has 8 entries; reading
a modelled list out of range yields 0, which never happens on length-8 stores). -/
def stateAt (st : RelayStates) (i : Nat) : Nat := st.getD i 0

/-- Decimal rendering of a state value, as `snprintf`'s `%d` produces for
nonnegative values. -/
def natDec (n : Nat) : List Char := (Nat.repr n).toList

/-- `get_relays_json`: the fixed-shape JSON serialization of all 8 channels,
mirroring the `snprintf` format string in the C source. -/
def get_relays_json (st : RelayStates) : List Char :=
  "\x7b\"relay_1\":\x7b\"state\":".toList ++ natDec (stateAt st 0) ++
  "\x7d,\"relay_2\":\x7b\"state\":".toList ++ natDec (stateAt st 1) ++
  "\x7d,\"relay_3\":\x7b\"state\":".toList ++ natDec (stateAt st 2) ++
  "\x7d,\"relay_4\":\x7b\"state\":".toList ++ natDec (stateAt st 3) ++
  "\x7d,\"relay_5\":\x7b\"state\":".toList ++ natDec (stateAt st 4) ++
  "\x7d,\"relay_6\":\x7b\"state\":".toList ++ natDec (stateAt st 5) ++
  "\x7d,\"relay_7\":\x7b\"state\":".toList ++ natDec (stateAt st 6) ++
  "\x7d,\"relay_8\":\x7b\"state\":".toList ++ natDec (stateAt st 7) ++
  "\x7d\x7d".toList

/-- A response as handed to `send_http_response`: status line, content type,
body. -/
structure HttpResponse where
  status : List Char
  contentType : List Char
  body : List Char
deriving DecidableEq, Repr

/-- The `404 Not Found` response. -/
def notFoundResponse : HttpResponse :=
  ⟨"404 Not Found".toList, "text/plain".toList, "Not Found".toList⟩

/-- The `200 OK` success response sent after relay mutations. -/
def successResponse : HttpResponse :=
  ⟨"200 OK".toList, "application/json".toList, "\x7b\"success\":true\x7d".toList⟩

/-- Modelled from the spec: `HTML_PAGE` (web_pages.h is not under src/); the
static page bytes are build-time collaborator content whose value no claim
depends on. -/
def HTML_PAGE : List Char := "HTML_PAGE".toList

/-- C `isspace` on the default locale: the six ASCII whitespace characters,
as skipped by `sscanf`'s `%s`. -/
def isSpaceByte (c : Char) : Bool :=
  c = ' ' || c = '\t' || c = '\n' || c = '\x0b' || c = '\x0c' || c = '\r'

/-- `sscanf(request, "%s %s", method, uri)`: skip whitespace, read a token,
skip whitespace, read a token; a missing token is the empty (zeroed) string. -/
def scanTwoTokens (request : List Char) : List Char × List Char :=
  let r1 := request.dropWhile isSpaceByte
  let method := r1.takeWhile (fun c => !(isSpaceByte c))
  let r2 := (r1.dropWhile (fun c => !(isSpaceByte c))).dropWhile isSpaceByte
  let uri := r2.takeWhile (fun c => !(isSpaceByte c))
  (method, uri)

/-- `strstr(hay, needle)` followed by skipping the needle: the suffix of `hay`
just after the first occurrence of `needle`, or `none` when absent. -/
def afterFirst (needle : List Char) : List Char → Option (List Char)
  | [] => none
  | c :: rest =>
    if needle.isPrefixOf (c :: rest) then some ((c :: rest).drop needle.length)
    else afterFirst needle rest

/-- `strstr(hay, needle) != NULL`. -/
def containsSub (needle hay : List Char) : Bool := (afterFirst needle hay).isSome

/-- The blank-line body terminator. -/
def crlf2 : List Char := "\r\n\r\n".toList

/-- The four literal state substrings scanned for in the body. -/
def needleOn1 : List Char := "\"state\":1".toList

/-- Variant with a space before the digit. -/
def needleOn2 : List Char := "\"state\": 1".toList

/-- OFF variant without a space. -/
def needleOff1 : List Char := "\"state\":0".toList

/-- OFF variant with a space. -/
def needleOff2 : List Char := "\"state\": 0".toList

/-- `uri[i]` on the zero-padded `char uri[128]` buffer: the byte at index `i`,
or the NUL terminator 0 past the token's end. -/
def uriCharAt (uri : List Char) (i : Nat) : Nat :=
  ((uri.get? i).map Char.toNat).getD 0

/-- `int relay_num = uri[11] - '0'` followed by the implicit conversion to the
`uint8_t` parameter of `set_relay` (reduction modulo 256). -/
def channelOfUri (uri : List Char) : Nat :=
  (((uriCharAt uri 11 : Int) - 48) % 256).toNat

/-- The `for (i = 1; i <= RELAY_COUNT; i++) set_relay(i, state)` loops of the
`all/on` and `all/off` routes. -/
def setAllRelays (state : Nat) (st : RelayStates) : RelayStates :=
  (List.range RELAY_COUNT).foldl (fun s i => set_relay (i + 1) state s) st

/-- The `int state` computation of the single-relay route: `state` starts at 0,
becomes 1 when an ON substring is found, is re-assigned 0 when only an OFF
substring is found. -/
def bodyState (body : List Char) : Nat :=
  if containsSub needleOn1 body || containsSub needleOn2 body then 1
  else if containsSub needleOff1 body || containsSub needleOff2 body then 0
  else 0

/-- `process_http_request`: parse the request line, route on method and path,
mutate the relay store and produce at most one response, branch for branch as
in the C source.  Falling off the end of the C function (method neither GET
nor POST, or missing body terminator on the single-relay route) produces no
response. -/
def process_http_request (request : List Char) (st : RelayStates) :
    RelayStates × Option HttpResponse :=
  let mu := scanTwoTokens request
  let method := mu.1
  let uri := mu.2
  if method = "GET".toList then
    if uri = "/".toList ∨ uri = "/index.html".toList then
      (st, some ⟨"200 OK".toList, "text/html".toList, HTML_PAGE⟩)
    else if uri = "/api/relays".toList then
      (st, some ⟨"200 OK".toList, "application/json".toList, get_relays_json st⟩)
    else
      (st, some notFoundResponse)
  else if method = "POST".toList then
    if "/api/relay/".toList.isPrefixOf uri then
      let relay_num := channelOfUri uri
      match afterFirst crlf2 request with
      | some body =>
        (set_relay relay_num (bodyState body) st, some successResponse)
      | none => (st, none)
    else if uri = "/api/relays/all/on".toList then
      (setAllRelays 1 st, some successResponse)
    else if uri = "/api/relays/all/off".toList then
      (setAllRelays 0 st, some successResponse)
    else
      (st, some notFoundResponse)
  else
    (st, none)

/-- The relay-store invariant: exactly 8 entries, each 0 or 1. -/
def relayStoreInv (st : RelayStates) : Prop :=
  st.length = 8 ∧ ∀ x ∈ st, x = 0 ∨ x = 1

instance (st : RelayStates) : Decidable (relayStoreInv st) := by
  unfold relayStoreInv
  infer_instance

/-! ## Helper lemmas -/

/-- Reading back the index just written by `List.set`, in-bounds. -/
lemma getD_set_self (l : List Nat) (i v : Nat) (h : i < l.length) :
    (l.set i v).getD i 0 = v := by
  simp [List.getD_eq_getElem?_getD, List.getElem?_set_self h]

/-- `List.set` leaves every other index unchanged. -/
lemma getD_set_ne (l : List Nat) {i j : Nat} (v : Nat) (h : i ≠ j) :
    (l.set i v).getD j 0 = l.getD j 0 := by
  simp [List.getD_eq_getElem?_getD, List.getElem?_set_ne h]

/-- Unfolding `process_http_request` on the single-relay POST route. -/
lemma process_post_relay (req uri : List Char) (st : RelayStates)
    (hscan : scanTwoTokens req = ("POST".toList, uri))
    (hpre : ("/api/relay/".toList).isPrefixOf uri = true) :
    process_http_request req st =
      match afterFirst crlf2 req with
      | some body => (set_relay (channelOfUri uri) (bodyState body) st,
                      some successResponse)
      | none => (st, none) := by
  unfold process_http_request
  rw [hscan]
  simp only [if_neg (by decide : ¬ ("POST".toList = "GET".toList)),
    if_pos rfl, if_pos hpre, if_true, ite_true]

/-- A length-8 list is an eight-element literal. -/
lemma exists_eight (st : RelayStates) (h : st.length = 8) :
    ∃ a b c d e f g h', st = [a, b, c, d, e, f, g, h'] := by
  rcases st with _ | ⟨a, st⟩; · simp at h
  rcases st with _ | ⟨b, st⟩; · simp at h
  rcases st with _ | ⟨c, st⟩; · simp at h
  rcases st with _ | ⟨d, st⟩; · simp at h
  rcases st with _ | ⟨e, st⟩; · simp at h
  rcases st with _ | ⟨f, st⟩; · simp at h
  rcases st with _ | ⟨g, st⟩; · simp at h
  rcases st with _ | ⟨h', st⟩; · simp at h
  rcases st with _ | ⟨i, st⟩
  · exact ⟨a, b, c, d, e, f, g, h', rfl⟩
  · simp at h

/-- The `all/on` and `all/off` loops overwrite every channel of a length-8
store with the normalized state value. -/
lemma setAllRelays_const (v : Nat) (st : RelayStates) (h : st.length = 8) :
    setAllRelays v st = List.replicate 8 (if v ≠ 0 then 1 else 0) := by
  obtain ⟨a, b, c, d, e, f, g, h', rfl⟩ := exists_eight st h
  rfl

/-- Unfolding `process_http_request` on the `GET /api/relays` route. -/
lemma process_get_relays (req : List Char) (st : RelayStates)
    (hscan : scanTwoTokens req = ("GET".toList, "/api/relays".toList)) :
    process_http_request req st =
      (st, some ⟨"200 OK".toList, "application/json".toList, get_relays_json st⟩) := by
  unfold process_http_request
  rw [hscan]
  simp only [if_pos rfl,
    if_neg (by decide :
      ¬ ("/api/relays".toList = "/".toList ∨ "/api/relays".toList = "/index.html".toList)),
    if_true, ite_true]

/-- Unfolding `process_http_request` on the `POST /api/relays/all/on` route. -/
lemma process_post_all_on (req : List Char) (st : RelayStates)
    (hscan : scanTwoTokens req = ("POST".toList, "/api/relays/all/on".toList)) :
    process_http_request req st = (setAllRelays 1 st, some successResponse) := by
  unfold process_http_request
  rw [hscan]
  simp only [if_neg (by decide : ¬ ("POST".toList = "GET".toList)), if_pos rfl,
    if_neg (by decide :
      ¬ (("/api/relay/".toList).isPrefixOf "/api/relays/all/on".toList = true)),
    Bool.false_eq_true, if_false, if_true, ite_true]

/-- Unfolding `process_http_request` on the `POST /api/relays/all/off` route. -/
lemma process_post_all_off (req : List Char) (st : RelayStates)
    (hscan : scanTwoTokens req = ("POST".toList, "/api/relays/all/off".toList)) :
    process_http_request req st = (setAllRelays 0 st, some successResponse) := by
  unfold process_http_request
  rw [hscan]
  simp only [if_neg (by decide : ¬ ("POST".toList = "GET".toList)), if_pos rfl,
    if_neg (by decide :
      ¬ (("/api/relay/".toList).isPrefixOf "/api/relays/all/off".toList = true)),
    if_neg (by decide :
      ¬ ("/api/relays/all/off".toList = "/api/relays/all/on".toList)),
    Bool.false_eq_true, if_false, if_true, ite_true]

/-- Writing the same channel twice with the same value is the same as once. -/
lemma set_relay_idem (rn v : Nat) (st : RelayStates) :
    set_relay rn v (set_relay rn v st) = set_relay rn v st := by
  by_cases hc : 1 ≤ rn ∧ rn ≤ RELAY_COUNT
  · simp [set_relay, hc, List.set_set]
  · simp [set_relay, hc]

/-- `set_relay` preserves the store invariant. -/
lemma set_relay_inv (rn v : Nat) (st : RelayStates) (h : relayStoreInv st) :
    relayStoreInv (set_relay rn v st) := by
  obtain ⟨hlen, hmem⟩ := h
  unfold set_relay
  split
  · refine ⟨by simp [hlen], fun x hx => ?_⟩
    rcases List.mem_or_eq_of_mem_set hx with hx' | rfl
    · exact hmem x hx'
    · split <;> simp
  · exact ⟨hlen, hmem⟩

/-- The `all/on`, `all/off` loops preserve the store invariant. -/
lemma setAllRelays_inv (v : Nat) (st : RelayStates) (h : relayStoreInv st) :
    relayStoreInv (setAllRelays v st) := by
  unfold setAllRelays
  generalize List.range RELAY_COUNT = l
  induction l generalizing st with
  | nil => exact h
  | cons i l ih => exact ih _ (set_relay_inv _ _ _ h)

/-- Every branch of `process_http_request` preserves the store invariant. -/
lemma process_inv (req : List Char) (st : RelayStates) (h : relayStoreInv st) :
    relayStoreInv (process_http_request req st).1 := by
  unfold process_http_request
  dsimp only
  split
  · split
    · exact h
    · split <;> exact h
  · split
    · split
      · split
        · exact set_relay_inv _ _ _ h
        · exact h
      · split
        · exact setAllRelays_inv _ _ h
        · split
          · exact setAllRelays_inv _ _ h
          · exact h
    · exact h

/-- In-range `set_relay` writes the normalized state at index `relay_num - 1`. -/
lemma set_relay_in_range (n v : Nat) (st : RelayStates) (h1 : 1 ≤ n) (h8 : n ≤ 8) :
    set_relay n v st = st.set (n - 1) (if v ≠ 0 then 1 else 0) := by
  unfold set_relay
  rw [if_pos ⟨h1, h8⟩]

/-! ## Claims -/

/-- C1: For every channel n in 1..8, processing a POST request to
/api/relay/n whose blank-line-terminated body contains the substring
"state":1 (or the variant "state": 1) sets channel n of the relay store to
ON and leaves the other 7 channels unchanged; if the body instead contains
"state":0 (or "state": 0), channel n is set to OFF and the other 7 channels
are unchanged. -/
theorem relay_post_sets_requested_channel
    (req uri body : List Char) (st : RelayStates) (n : Nat)
    (hscan : scanTwoTokens req = ("POST".toList, uri))
    (hpre : ("/api/relay/".toList).isPrefixOf uri = true)
    (hch : channelOfUri uri = n)
    (hn1 : 1 ≤ n) (hn8 : n ≤ 8)
    (hbody : afterFirst crlf2 req = some body)
    (hlen : st.length = 8) :
    ((containsSub needleOn1 body || containsSub needleOn2 body) = true →
       (process_http_request req st).1.getD (n - 1) 0 = 1 ∧
       ∀ i, i ≠ n - 1 → (process_http_request req st).1.getD i 0 = st.getD i 0) ∧
    ((containsSub needleOn1 body || containsSub needleOn2 body) = false →
     (containsSub needleOff1 body || containsSub needleOff2 body) = true →
       (process_http_request req st).1.getD (n - 1) 0 = 0 ∧
       ∀ i, i ≠ n - 1 → (process_http_request req st).1.getD i 0 = st.getD i 0) := by
  rw [process_post_relay req uri st hscan hpre, hbody]
  dsimp only
  rw [hch, set_relay_in_range n (bodyState body) st hn1 hn8]
  constructor
  · intro hOn
    have hbs : bodyState body = 1 := by simp [bodyState, hOn]
    rw [hbs, if_pos (by decide : (1 : Nat) ≠ 0)]
    exact ⟨getD_set_self _ _ _ (by omega),
      fun i hi => getD_set_ne _ _ (by omega)⟩
  · intro hOn hOff
    have hbs : bodyState body = 0 := by
      simp [bodyState, hOn, hOff]
    rw [hbs, if_neg (by decide : ¬ ((0 : Nat) ≠ 0))]
    exact ⟨getD_set_self _ _ _ (by omega),
      fun i hi => getD_set_ne _ _ (by omega)⟩

/-- C1 witness: POST /api/relay/3 with body containing "state":1 on a mixed
store turns channel 3 ON. -/
theorem relay_post_sets_requested_channel_witness :
    (process_http_request
        ("POST /api/relay/3 HTTP/1.1\r\nHost: device\r\n\r\n\x7b\"state\":1\x7d".toList)
        [0, 1, 0, 1, 0, 1, 0, 1]).1.getD 2 0 = 1 :=
  ((relay_post_sets_requested_channel
      ("POST /api/relay/3 HTTP/1.1\r\nHost: device\r\n\r\n\x7b\"state\":1\x7d".toList)
      ("/api/relay/3".toList)
      ("\x7b\"state\":1\x7d".toList)
      [0, 1, 0, 1, 0, 1, 0, 1] 3
      (by decide) (by decide) (by decide) (by decide) (by decide) (by decide)
      (by decide)).1 (by decide)).1

/-- C2: For every relay-store contents, GET /api/relays yields a 200
application/json response whose body is the fixed-shape serialization of the
current store, and mutates no relay state. -/
theorem get_relays_reports_store
    (req : List Char) (st : RelayStates)
    (hscan : scanTwoTokens req = ("GET".toList, "/api/relays".toList)) :
    process_http_request req st =
      (st, some ⟨"200 OK".toList, "application/json".toList, get_relays_json st⟩) :=
  process_get_relays req st hscan

/-- C2 witness: GET /api/relays on a mixed store returns its serialization
unchanged. -/
theorem get_relays_reports_store_witness :
    process_http_request ("GET /api/relays HTTP/1.1\r\nHost: device\r\n\r\n".toList)
        [1, 0, 1, 0, 0, 0, 0, 0] =
      ([1, 0, 1, 0, 0, 0, 0, 0],
       some ⟨"200 OK".toList, "application/json".toList,
             get_relays_json [1, 0, 1, 0, 0, 0, 0, 0]⟩) :=
  get_relays_reports_store
    ("GET /api/relays HTTP/1.1\r\nHost: device\r\n\r\n".toList)
    [1, 0, 1, 0, 0, 0, 0, 0] (by decide)

set_option maxRecDepth 4000 in
/-- C3: POST /api/relays/all/on sets all 8 channels ON and responds 200
success, so an immediately following GET /api/relays serializes all eight
entries as state 1; likewise all/off sets all OFF with all-zero
serialization. -/
theorem all_on_all_off_set_every_channel
    (reqOn reqOff : List Char) (st st' : RelayStates)
    (hlen : st.length = 8) (hlen' : st'.length = 8)
    (hOn : scanTwoTokens reqOn = ("POST".toList, "/api/relays/all/on".toList))
    (hOff : scanTwoTokens reqOff = ("POST".toList, "/api/relays/all/off".toList)) :
    process_http_request reqOn st = (List.replicate 8 1, some successResponse) ∧
    get_relays_json (List.replicate 8 1) =
      ("\x7b\"relay_1\":\x7b\"state\":1\x7d,\"relay_2\":\x7b\"state\":1\x7d," ++
       "\"relay_3\":\x7b\"state\":1\x7d,\"relay_4\":\x7b\"state\":1\x7d," ++
       "\"relay_5\":\x7b\"state\":1\x7d,\"relay_6\":\x7b\"state\":1\x7d," ++
       "\"relay_7\":\x7b\"state\":1\x7d,\"relay_8\":\x7b\"state\":1\x7d\x7d").toList ∧
    process_http_request reqOff st' = (List.replicate 8 0, some successResponse) ∧
    get_relays_json (List.replicate 8 0) =
      ("\x7b\"relay_1\":\x7b\"state\":0\x7d,\"relay_2\":\x7b\"state\":0\x7d," ++
       "\"relay_3\":\x7b\"state\":0\x7d,\"relay_4\":\x7b\"state\":0\x7d," ++
       "\"relay_5\":\x7b\"state\":0\x7d,\"relay_6\":\x7b\"state\":0\x7d," ++
       "\"relay_7\":\x7b\"state\":0\x7d,\"relay_8\":\x7b\"state\":0\x7d\x7d").toList := by
  refine ⟨?_, by decide, ?_, by decide⟩
  · rw [process_post_all_on reqOn st hOn, setAllRelays_const 1 st hlen]
    norm_num
  · rw [process_post_all_off reqOff st' hOff, setAllRelays_const 0 st' hlen']
    norm_num

set_option maxRecDepth 4000 in
/-- C3 witness: the all/on and all/off requests on concrete stores. -/
theorem all_on_all_off_set_every_channel_witness :
    process_http_request ("POST /api/relays/all/on HTTP/1.1\r\n\r\n".toList)
        [0, 1, 0, 1, 0, 1, 0, 1] = (List.replicate 8 1, some successResponse) ∧
    get_relays_json (List.replicate 8 1) =
      ("\x7b\"relay_1\":\x7b\"state\":1\x7d,\"relay_2\":\x7b\"state\":1\x7d," ++
       "\"relay_3\":\x7b\"state\":1\x7d,\"relay_4\":\x7b\"state\":1\x7d," ++
       "\"relay_5\":\x7b\"state\":1\x7d,\"relay_6\":\x7b\"state\":1\x7d," ++
       "\"relay_7\":\x7b\"state\":1\x7d,\"relay_8\":\x7b\"state\":1\x7d\x7d").toList ∧
    process_http_request ("POST /api/relays/all/off HTTP/1.1\r\n\r\n".toList)
        [1, 1, 0, 0, 1, 1, 0, 0] = (List.replicate 8 0, some successResponse) ∧
    get_relays_json (List.replicate 8 0) =
      ("\x7b\"relay_1\":\x7b\"state\":0\x7d,\"relay_2\":\x7b\"state\":0\x7d," ++
       "\"relay_3\":\x7b\"state\":0\x7d,\"relay_4\":\x7b\"state\":0\x7d," ++
       "\"relay_5\":\x7b\"state\":0\x7d,\"relay_6\":\x7b\"state\":0\x7d," ++
       "\"relay_7\":\x7b\"state\":0\x7d,\"relay_8\":\x7b\"state\":0\x7d\x7d").toList :=
  all_on_all_off_set_every_channel
    ("POST /api/relays/all/on HTTP/1.1\r\n\r\n".toList)
    ("POST /api/relays/all/off HTTP/1.1\r\n\r\n".toList)
    [0, 1, 0, 1, 0, 1, 0, 1] [1, 1, 0, 0, 1, 1, 0, 0]
    (by decide) (by decide) (by decide) (by decide)

/-- C4 counterexample: a request whose method is neither GET nor POST
(here PUT) produces no response at all — in particular not the claimed 404
response — because the C routing function falls off its
if/else-if chain without a final else. -/
theorem other_method_produces_no_response :
    process_http_request ("PUT /foo HTTP/1.1\r\nHost: device\r\n\r\n".toList) relay_init
      = (relay_init, none) ∧
    (process_http_request ("PUT /foo HTTP/1.1\r\nHost: device\r\n\r\n".toList)
        relay_init).2 ≠ some notFoundResponse := by
  refine ⟨by decide, by decide⟩

/-- C4 (amended): a GET or POST request whose path matches no route yields
the 404 text/plain Not Found response and leaves every relay state unchanged;
a request whose method is neither GET nor POST also leaves every relay state
unchanged but produces no response at all. -/
theorem unmatched_routes_not_found
    (req method uri : List Char) (st : RelayStates)
    (hscan : scanTwoTokens req = (method, uri)) :
    (method = "GET".toList → uri ≠ "/".toList → uri ≠ "/index.html".toList →
      uri ≠ "/api/relays".toList →
      process_http_request req st = (st, some notFoundResponse)) ∧
    (method = "POST".toList → ("/api/relay/".toList).isPrefixOf uri = false →
      uri ≠ "/api/relays/all/on".toList → uri ≠ "/api/relays/all/off".toList →
      process_http_request req st = (st, some notFoundResponse)) ∧
    (method ≠ "GET".toList → method ≠ "POST".toList →
      process_http_request req st = (st, none)) := by
  unfold process_http_request
  rw [hscan]
  dsimp only
  refine ⟨?_, ?_, ?_⟩
  · intro hm h1 h2 h3
    rw [if_pos hm, if_neg (by tauto), if_neg h3]
  · intro hm hpre h1 h2
    rw [if_neg (by rw [hm]; decide), if_pos hm,
      if_neg (by rw [hpre]; decide), if_neg h1, if_neg h2]
  · intro h1 h2
    rw [if_neg h1, if_neg h2]

/-- C4 witness: GET /foo yields 404 Not Found with the store unchanged. -/
theorem unmatched_routes_not_found_witness :
    process_http_request ("GET /foo HTTP/1.1\r\nHost: device\r\n\r\n".toList)
        [1, 0, 1, 0, 0, 0, 0, 0] =
      ([1, 0, 1, 0, 0, 0, 0, 0], some notFoundResponse) :=
  (unmatched_routes_not_found
    ("GET /foo HTTP/1.1\r\nHost: device\r\n\r\n".toList)
    ("GET".toList) ("/foo".toList) [1, 0, 1, 0, 0, 0, 0, 0]
    (by decide)).1 rfl (by decide) (by decide) (by decide)

/-- C5: a POST to /api/relay/c whose character c denotes a channel outside
1..8 mutates no relay state, yet (when the body terminator is present) the
200 success response is still sent. -/
theorem out_of_range_channel_ignored_but_success
    (req uri body : List Char) (st : RelayStates)
    (hscan : scanTwoTokens req = ("POST".toList, uri))
    (hpre : ("/api/relay/".toList).isPrefixOf uri = true)
    (hbody : afterFirst crlf2 req = some body)
    (hch : ¬ (1 ≤ channelOfUri uri ∧ channelOfUri uri ≤ RELAY_COUNT)) :
    process_http_request req st = (st, some successResponse) := by
  rw [process_post_relay req uri st hscan hpre, hbody]
  dsimp only
  unfold set_relay
  rw [if_neg hch]

/-- C5 witness: POST /api/relay/9 with body "state":1 leaves the store
unchanged while still answering success. -/
theorem out_of_range_channel_ignored_but_success_witness :
    process_http_request
        ("POST /api/relay/9 HTTP/1.1\r\nHost: device\r\n\r\n\x7b\"state\":1\x7d".toList)
        [0, 1, 0, 1, 0, 1, 0, 1] =
      ([0, 1, 0, 1, 0, 1, 0, 1], some successResponse) :=
  out_of_range_channel_ignored_but_success
    ("POST /api/relay/9 HTTP/1.1\r\nHost: device\r\n\r\n\x7b\"state\":1\x7d".toList)
    ("/api/relay/9".toList) ("\x7b\"state\":1\x7d".toList)
    [0, 1, 0, 1, 0, 1, 0, 1]
    (by decide) (by decide) (by decide) (by decide)

/-- C6: a POST to /api/relay/n whose bytes contain no blank-line body
terminator mutates no relay state and generates no response bytes at all. -/
theorem missing_terminator_silent
    (req uri : List Char) (st : RelayStates)
    (hscan : scanTwoTokens req = ("POST".toList, uri))
    (hpre : ("/api/relay/".toList).isPrefixOf uri = true)
    (hbody : afterFirst crlf2 req = none) :
    process_http_request req st = (st, none) := by
  rw [process_post_relay req uri st hscan hpre, hbody]

/-- C6 witness: a terminator-less POST /api/relay/3 is silently dropped. -/
theorem missing_terminator_silent_witness :
    process_http_request ("POST /api/relay/3 HTTP/1.1\r\nHost: device".toList)
        [0, 1, 0, 1, 0, 1, 0, 1] = ([0, 1, 0, 1, 0, 1, 0, 1], none) :=
  missing_terminator_silent
    ("POST /api/relay/3 HTTP/1.1\r\nHost: device".toList)
    ("/api/relay/3".toList) [0, 1, 0, 1, 0, 1, 0, 1]
    (by decide) (by decide) (by decide)

/-- C7: a POST to /api/relay/n (n in 1..8) with a blank-line-terminated body
containing none of the four accepted state substrings defaults to OFF:
channel n is set to 0 and the 200 success response is sent. -/
theorem no_state_substring_defaults_off
    (req uri body : List Char) (st : RelayStates) (n : Nat)
    (hscan : scanTwoTokens req = ("POST".toList, uri))
    (hpre : ("/api/relay/".toList).isPrefixOf uri = true)
    (hch : channelOfUri uri = n)
    (hn1 : 1 ≤ n) (hn8 : n ≤ 8)
    (hbody : afterFirst crlf2 req = some body)
    (hlen : st.length = 8)
    (h1 : containsSub needleOn1 body = false)
    (h2 : containsSub needleOn2 body = false)
    (h3 : containsSub needleOff1 body = false)
    (h4 : containsSub needleOff2 body = false) :
    (process_http_request req st).1.getD (n - 1) 0 = 0 ∧
    (process_http_request req st).2 = some successResponse := by
  rw [process_post_relay req uri st hscan hpre, hbody]
  dsimp only
  rw [hch, set_relay_in_range n (bodyState body) st hn1 hn8]
  have hbs : bodyState body = 0 := by simp [bodyState, h1, h2, h3, h4]
  rw [hbs, if_neg (by decide : ¬ ((0 : Nat) ≠ 0))]
  exact ⟨getD_set_self _ _ _ (by omega), rfl⟩

/-- C7 witness: POST /api/relay/4 with an unrelated body turns channel 4 OFF
and still answers success. -/
theorem no_state_substring_defaults_off_witness :
    (process_http_request
        ("POST /api/relay/4 HTTP/1.1\r\nHost: device\r\n\r\n\x7b\"mode\":2\x7d".toList)
        [1, 1, 1, 1, 1, 1, 1, 1]).1.getD 3 0 = 0 ∧
    (process_http_request
        ("POST /api/relay/4 HTTP/1.1\r\nHost: device\r\n\r\n\x7b\"mode\":2\x7d".toList)
        [1, 1, 1, 1, 1, 1, 1, 1]).2 = some successResponse :=
  no_state_substring_defaults_off
    ("POST /api/relay/4 HTTP/1.1\r\nHost: device\r\n\r\n\x7b\"mode\":2\x7d".toList)
    ("/api/relay/4".toList) ("\x7b\"mode\":2\x7d".toList)
    [1, 1, 1, 1, 1, 1, 1, 1] 4
    (by decide) (by decide) (by decide) (by decide) (by decide) (by decide)
    (by decide) (by decide) (by decide) (by decide) (by decide)

/-- C8 counterexample: the claim's example body, containing "other_state":1,
is NOT interpreted as ON: the needle includes the opening quote, and
"state":1 with that quote does not occur in the body, so the state defaults
to 0 and channel 3 of an all-ON store is actively switched OFF, not ON. -/
theorem other_state_body_not_interpreted_on :
    (process_http_request
        ("POST /api/relay/3 HTTP/1.1\r\nHost: device\r\n\r\n\x7b\"other_state\":1\x7d".toList)
        (List.replicate 8 1)).1.getD 2 0 = 0 ∧
    containsSub needleOn1 ("\x7b\"other_state\":1\x7d".toList) = false ∧
    (0 : Nat) ≠ 1 := by
  refine ⟨by decide, by decide, by decide⟩

/-- C8 (amended): state matching is literal substring search including the
needle's opening quote, so a body containing "other_state":1 does not match
and is treated as OFF; but the needle can still occur inside a longer key
when the key's raw bytes contain an escaped quote: the body
\x7b"a\"state":1\x7d has no standalone state field, yet the router interprets
it as ON and sets channel 3 ON. -/
theorem substring_match_inside_longer_key :
    containsSub needleOn1 ("\x7b\"a\\\"state\":1\x7d".toList) = true ∧
    (process_http_request
        ("POST /api/relay/3 HTTP/1.1\r\nHost: device\r\n\r\n\x7b\"a\\\"state\":1\x7d".toList)
        (List.replicate 8 0)).1.getD 2 0 = 1 := by
  refine ⟨by decide, by decide⟩

/-- C9: processing the same POST /api/relay/n request twice in a row leaves
the relay store in the same state as processing it once. -/
theorem relay_post_idempotent
    (req uri : List Char) (st : RelayStates)
    (hscan : scanTwoTokens req = ("POST".toList, uri))
    (hpre : ("/api/relay/".toList).isPrefixOf uri = true) :
    (process_http_request req (process_http_request req st).1).1 =
      (process_http_request req st).1 := by
  have h1 := process_post_relay req uri st hscan hpre
  cases hb : afterFirst crlf2 req with
  | none =>
    simp only [hb] at h1
    rw [h1, h1]
  | some body =>
    simp only [hb] at h1
    have h2 := process_post_relay req uri
      (set_relay (channelOfUri uri) (bodyState body) st) hscan hpre
    simp only [hb] at h2
    rw [h1, h2]
    exact set_relay_idem _ _ _

/-- C9 witness: repeating POST /api/relay/2 with body "state":1 gives the
same store as sending it once. -/
theorem relay_post_idempotent_witness :
    (process_http_request
        ("POST /api/relay/2 HTTP/1.1\r\n\r\n\x7b\"state\":1\x7d".toList)
        (process_http_request
          ("POST /api/relay/2 HTTP/1.1\r\n\r\n\x7b\"state\":1\x7d".toList)
          [0, 0, 0, 0, 0, 0, 0, 0]).1).1 =
      (process_http_request
        ("POST /api/relay/2 HTTP/1.1\r\n\r\n\x7b\"state\":1\x7d".toList)
        [0, 0, 0, 0, 0, 0, 0, 0]).1 :=
  relay_post_idempotent
    ("POST /api/relay/2 HTTP/1.1\r\n\r\n\x7b\"state\":1\x7d".toList)
    ("/api/relay/2".toList) [0, 0, 0, 0, 0, 0, 0, 0]
    (by decide) (by decide)

/-- C10: the relay store always has exactly 8 entries each holding 0 or 1:
this holds of the initial store, is preserved by `set_relay` (which
normalizes any nonzero state to 1 and writes only in bounds), and is
preserved by processing any request whatsoever. -/
theorem relay_store_invariant :
    relayStoreInv relay_init ∧
    (∀ rn v st, relayStoreInv st → relayStoreInv (set_relay rn v st)) ∧
    (∀ req st, relayStoreInv st → relayStoreInv (process_http_request req st).1) :=
  ⟨by decide, set_relay_inv, process_inv⟩

/-- C10 witness: the invariant holds after an all/on request on the initial
store. -/
theorem relay_store_invariant_witness :
    relayStoreInv (process_http_request
      ("POST /api/relays/all/on HTTP/1.1\r\n\r\n".toList) relay_init).1 :=
  relay_store_invariant.2.2
    ("POST /api/relays/all/on HTTP/1.1\r\n\r\n".toList) relay_init (by decide)

end Waveshare
